import Mathlib

/-!
Verification development for the agent-swarm lifecycle engine.

This file shallowly embeds the parts of the repository that the verified
properties are about:

* `parsers.py` — vendor-specific normalization of streaming JSON events into
  the canonical event taxonomy (`normalize_events` and the four
  `_normalize_*` translation functions);
* `agents.py` — the agent record (`AgentProcess`: lazy log tailing in
  `_read_new_events`, status reconciliation in `update_status_from_process`)
  and the registry (`AgentManager.spawn` with validation, concurrency
  admission, launch, rollback; `_build_command`, `_apply_yolo_mode`,
  `resolve_mode_flags`);
* `summarizer.py` — the accumulation of the `final_message` field of
  `summarize_events`.

JSON values are modelled by the inductive `Json`.  Python operations that can
raise (attribute access on a non-dict, iteration of a non-iterable, string
concatenation with a non-string) are modelled in `Except Unit`; operations
that cannot raise are total functions.  Machine-level details (timestamps,
PIDs) are threaded explicitly: "now" is a parameter, the set of live PIDs and
the exit-code oracle are parameters of the reconciliation functions.
-/

/-- A JSON value, as produced by `json.loads` on one log line or embedded in a
vendor payload.  Python dicts are ordered association lists. -/
inductive Json where
  | null : Json
  | bool (b : Bool) : Json
  | num (n : Int) : Json
  | str (s : String) : Json
  | arr (xs : List Json) : Json
  | obj (fields : List (String × Json)) : Json

/-- Python truthiness of a JSON value (`if value:`). -/
def truthy : Json → Bool
  | .null => false
  | .bool b => b
  | .num n => n != 0
  | .str s => s != ""
  | .arr xs => !xs.isEmpty
  | .obj fs => !fs.isEmpty

/-- `value == "s"` for a string literal: only a Python `str` compares equal to
a string. -/
def Json.isS : Json → String → Bool
  | .str t, s => t == s
  | _, _ => false

/-- `value is None` / `== None`: the payload holds an explicit null (or the
`dict.get` default was taken). -/
def Json.isNull : Json → Bool
  | .null => true
  | _ => false

/-- `d.get(k, default)` on a value that is known to be a dict: first binding
of the key wins, default if the key is absent. -/
def lookupD (fs : List (String × Json)) (k : String) (d : Json) : Json :=
  match fs.find? (fun p => p.1 == k) with
  | some p => p.2
  | none => d

/-- `value.get(k, default)` where `value` may be any JSON value: raises
(`AttributeError`) unless the value is a dict. -/
def pyGetD (j : Json) (k : String) (d : Json) : Except Unit Json :=
  match j with
  | .obj fs => .ok (lookupD fs k d)
  | _ => .error ()

/-- Python `or` on two JSON values: the first if truthy, otherwise the
second. -/
def pyOrJ (a b : Json) : Json :=
  if truthy a then a else b

/-- `for x in value`: a list iterates its elements, a string its characters,
a dict its keys; other values raise (`TypeError`). -/
def pyIter : Json → Except Unit (List Json)
  | .arr xs => .ok xs
  | .str s => .ok (s.toList.map (fun c => Json.str c.toString))
  | .obj fs => .ok (fs.map (fun f => Json.str f.1))
  | _ => .error ()

mutual

/-- Python `repr` of a JSON value (used by `str()` on non-string values). -/
def pyRepr : Json → String
  | .null => "None"
  | .bool true => "True"
  | .bool false => "False"
  | .num n => toString n
  | .str s => "\x27" ++ s ++ "\x27"
  | .arr xs => "[" ++ String.intercalate ", " (pyReprList xs) ++ "]"
  | .obj fs => "\x7b" ++ String.intercalate ", " (pyReprFields fs) ++ "\x7d"

/-- `repr` of the elements of a JSON array. -/
def pyReprList : List Json → List String
  | [] => []
  | x :: xs => pyRepr x :: pyReprList xs

/-- `repr` of the bindings of a JSON object. -/
def pyReprFields : List (String × Json) → List String
  | [] => []
  | (k, v) :: fs => ("\x27" ++ k ++ "\x27: " ++ pyRepr v) :: pyReprFields fs

end

/-- Python `str()` of a JSON value. -/
def pyStr : Json → String
  | .str s => s
  | j => pyRepr j

/-- `s.lower()` on a Python string. -/
def pyLower (s : String) : String :=
  ⟨s.data.map Char.toLower⟩

/-- `s.strip()` on a Python string. -/
def pyTrim (s : String) : String :=
  ⟨((s.data.dropWhile Char.isWhitespace).reverse.dropWhile Char.isWhitespace).reverse⟩

/-- Occurrence of `sub` somewhere in a character list. -/
def listContainsSub (sub : List Char) : List Char → Bool
  | [] => sub.isEmpty
  | c :: cs => sub.isPrefixOf (c :: cs) || listContainsSub sub cs

/-- Substring membership `sub in s` on Python strings. -/
def containsSub (s sub : String) : Bool :=
  listContainsSub sub.data s.data

/-- Left-to-right, non-overlapping replacement of every occurrence of `pat`
in a character list (`str.replace`), with a step budget that each step
strictly consumes; a budget of the list's length always suffices. -/
def replaceAllFuel (pat rep : List Char) : Nat → List Char → List Char
  | 0, l => l
  | _ + 1, [] => []
  | fuel + 1, c :: cs =>
    if pat ≠ [] ∧ pat.isPrefixOf (c :: cs) then
      rep ++ replaceAllFuel pat rep fuel (cs.drop (pat.length - 1))
    else
      c :: replaceAllFuel pat rep fuel cs

/-- `s.replace(pat, rep)` on Python strings. -/
def pyReplace (s pat rep : String) : String :=
  ⟨replaceAllFuel pat.data rep.data s.data.length s.data⟩

/-- A canonical event: the Python dict built by a normalizer, as an ordered
list of string-keyed JSON fields. -/
abbrev CEvent : Type := List (String × Json)

/-- `event.get(k)` on a canonical event (default `None`). -/
def eget (e : CEvent) (k : String) : Json :=
  lookupD e k Json.null

/-- `event[k] = v`: replace the binding in place, or append it. -/
def setField (e : CEvent) (k : String) (v : Json) : CEvent :=
  if e.any (fun p => p.1 == k) then
    e.map (fun p => if p.1 == k then (k, v) else p)
  else
    e ++ [(k, v)]

/-- The default passthrough event a vendor translation emits for an
unrecognized payload (`{"type": event_type, "agent": ..., "raw": raw,
"timestamp": ...}`). -/
def passthroughEv (agentName : String) (t : Json) (raw : Json) (ts : String) : CEvent :=
  [("type", t), ("agent", Json.str agentName), ("raw", raw), ("timestamp", Json.str ts)]

/-- Run a computation on the bindings of a value that the Python code
dereferences as a dict (`value.get(...)`, iteration of `.items()`): raises
`AttributeError` unless the value actually is a dict. -/
def onObj {α : Type} (j : Json) (f : List (String × Json) → Except Unit α) : Except Unit α :=
  match j with
  | .obj fs => f fs
  | _ => .error ()

/-- Sequencing in the exception monad: a raised exception propagates, a value
flows into the continuation. -/
def exBind {α β : Type} (x : Except Unit α) (f : α → Except Unit β) : Except Unit β :=
  match x with
  | .error e => .error e
  | .ok v => f v

/-- `_normalize_codex` from `parsers.py`: translates one Codex CLI payload.
`ts` stands for `datetime.now().isoformat()`. -/
def normalize_codex (raw : Json) (ts : String) : Except Unit (List CEvent) :=
  onObj raw fun fs =>
    let event_type := lookupD fs "type" (Json.str "unknown")
    if event_type.isS "thread.started" then
      .ok [[("type", Json.str "init"), ("agent", Json.str "codex"),
            ("session_id", lookupD fs "thread_id" Json.null),
            ("timestamp", Json.str ts)]]
    else if event_type.isS "turn.started" then
      .ok [[("type", Json.str "turn_start"), ("agent", Json.str "codex"),
            ("timestamp", Json.str ts)]]
    else if event_type.isS "item.completed" then
      onObj (lookupD fs "item" (Json.obj [])) fun ifs =>
        let item_type := lookupD ifs "type" Json.null
        if item_type.isS "agent_message" then
          .ok [[("type", Json.str "message"), ("agent", Json.str "codex"),
                ("content", lookupD ifs "text" (Json.str "")),
                ("complete", Json.bool true), ("timestamp", Json.str ts)]]
        else if item_type.isS "command_execution" then
          .ok [[("type", Json.str "bash"), ("agent", Json.str "codex"),
                ("tool", Json.str "command_execution"),
                ("command", lookupD ifs "command" (Json.str "")),
                ("timestamp", Json.str ts)]]
        else if item_type.isS "tool_call" then
          let tool_name := lookupD ifs "name" (Json.str "unknown")
          let tool_args := lookupD ifs "arguments" (Json.obj [])
          if tool_name.isS "write_file" || tool_name.isS "create_file" ||
              tool_name.isS "edit_file" then
            onObj tool_args fun afs =>
              .ok [[("type", Json.str "file_write"), ("agent", Json.str "codex"),
                    ("tool", tool_name),
                    ("path", lookupD afs "path" (lookupD afs "file_path" (Json.str ""))),
                    ("timestamp", Json.str ts)]]
          else if tool_name.isS "read_file" then
            onObj tool_args fun afs =>
              .ok [[("type", Json.str "file_read"), ("agent", Json.str "codex"),
                    ("tool", tool_name),
                    ("path", lookupD afs "path" (lookupD afs "file_path" (Json.str ""))),
                    ("timestamp", Json.str ts)]]
          else if tool_name.isS "shell" || tool_name.isS "bash" ||
              tool_name.isS "execute" then
            onObj tool_args fun afs =>
              .ok [[("type", Json.str "bash"), ("agent", Json.str "codex"),
                    ("tool", tool_name),
                    ("command", lookupD afs "command" (Json.str "")),
                    ("timestamp", Json.str ts)]]
          else
            .ok [[("type", Json.str "tool_use"), ("agent", Json.str "codex"),
                  ("tool", tool_name), ("args", tool_args),
                  ("timestamp", Json.str ts)]]
        else
          .ok [passthroughEv "codex" event_type raw ts]
    else if event_type.isS "turn.completed" then
      onObj (lookupD fs "usage" (Json.obj [])) fun ufs =>
        .ok [[("type", Json.str "result"), ("agent", Json.str "codex"),
              ("status", Json.str "success"),
              ("usage", Json.obj
                [("input_tokens", lookupD ufs "input_tokens" (Json.num 0)),
                 ("output_tokens", lookupD ufs "output_tokens" (Json.num 0))]),
              ("timestamp", Json.str ts)]]
    else
      .ok [passthroughEv "codex" event_type raw ts]

/-- The `message` canonical event built inside the `assistant` branch of
`_normalize_cursor` (complete text, possibly empty). -/
def cursorMsgEvent (content ts : String) : CEvent :=
  [("type", Json.str "message"), ("agent", Json.str "cursor"),
   ("content", Json.str content), ("complete", Json.bool true),
   ("timestamp", Json.str ts)]

/-- The `tool_use` canonical event built for one `tool_use` content block of a
Cursor `assistant` payload. -/
def cursorToolEvent (nm inp : Json) (ts : String) : CEvent :=
  [("type", Json.str "tool_use"), ("agent", Json.str "cursor"),
   ("tool", nm), ("args", inp), ("timestamp", Json.str ts)]

/-- One iteration of the content-block loop of `_normalize_cursor`'s
`assistant` branch: a `text` block appends to the accumulated text (raising if
its `text` field is not a string), a `tool_use` block appends one `tool_use`
event, any other block is skipped.  Raises if the block is not a dict. -/
def cursorBlockStep (ts : String) (acc : List CEvent × String) (block : Json) :
    Except Unit (List CEvent × String) :=
  match block with
  | .obj bfs =>
    let bt := lookupD bfs "type" Json.null
    if bt.isS "text" then
      match lookupD bfs "text" (Json.str "") with
      | .str s => .ok (acc.1, acc.2 ++ s)
      | _ => .error ()
    else if bt.isS "tool_use" then
      .ok (acc.1 ++ [cursorToolEvent (lookupD bfs "name" (Json.str "unknown"))
                      (lookupD bfs "input" (Json.obj [])) ts], acc.2)
    else
      .ok acc
  | _ => .error ()

/-- Left fold in the `Except` monad (the Python `for` loop over content
blocks, where an iteration may raise). -/
def foldE {α β : Type} (f : β → α → Except Unit β) : β → List α → Except Unit β
  | b, [] => .ok b
  | b, x :: xs =>
    match f b x with
    | .error e => .error e
    | .ok b' => foldE f b' xs

/-- The `assistant` branch of `_normalize_cursor`: fan-out of one vendor
payload into one event per embedded tool invocation plus one `message` event
when text content is present, with a fallback `message` event when nothing was
produced. -/
def cursorAssistant (fs : List (String × Json)) (ts : String) :
    Except Unit (List CEvent) :=
  onObj (lookupD fs "message" (Json.obj [])) fun mfs =>
    exBind (pyIter (lookupD mfs "content" (Json.arr []))) fun blocks =>
      exBind (foldE (cursorBlockStep ts) ([], "") blocks) fun acc =>
        let events := if acc.2 != "" then acc.1 ++ [cursorMsgEvent acc.2 ts] else acc.1
        .ok (if events.isEmpty then [cursorMsgEvent "" ts] else events)

/-- `_normalize_cursor` from `parsers.py`: translates one Cursor Agent CLI
payload. -/
def normalize_cursor (raw : Json) (ts : String) : Except Unit (List CEvent) :=
  onObj raw fun fs =>
    let event_type := lookupD fs "type" (Json.str "unknown")
    let subtype := lookupD fs "subtype" Json.null
    if event_type.isS "system" && subtype.isS "init" then
      .ok [[("type", Json.str "init"), ("agent", Json.str "cursor"),
            ("model", lookupD fs "model" Json.null),
            ("session_id", lookupD fs "session_id" Json.null),
            ("timestamp", Json.str ts)]]
    else if event_type.isS "thinking" then
      .ok [[("type", Json.str "thinking"), ("agent", Json.str "cursor"),
            ("content", lookupD fs "text" (Json.str "")),
            ("complete", Json.bool (subtype.isS "complete")),
            ("timestamp", Json.str ts)]]
    else if event_type.isS "assistant" then
      cursorAssistant fs ts
    else if event_type.isS "result" then
      .ok [[("type", Json.str "result"), ("agent", Json.str "cursor"),
            ("status", pyOrJ subtype (Json.str "success")),
            ("duration_ms", lookupD fs "duration_ms" Json.null),
            ("timestamp", Json.str ts)]]
    else if event_type.isS "tool_result" then
      .ok [[("type", Json.str "tool_result"), ("agent", Json.str "cursor"),
            ("tool", lookupD fs "tool_name" (Json.str "unknown")),
            ("success", lookupD fs "success" (Json.bool true)),
            ("timestamp", Json.str ts)]]
    else
      .ok [passthroughEv "cursor" event_type raw ts]

/-- `_normalize_gemini` from `parsers.py`: translates one Gemini CLI
payload. -/
def normalize_gemini (raw : Json) (ts : String) : Except Unit (List CEvent) :=
  onObj raw fun fs =>
    let event_type := lookupD fs "type" (Json.str "unknown")
    let timestamp := lookupD fs "timestamp" (Json.str ts)
    if event_type.isS "init" then
      .ok [[("type", Json.str "init"), ("agent", Json.str "gemini"),
            ("model", lookupD fs "model" Json.null),
            ("session_id", lookupD fs "session_id" Json.null),
            ("timestamp", timestamp)]]
    else if event_type.isS "message" then
      let role := lookupD fs "role" (Json.str "assistant")
      if role.isS "assistant" then
        .ok [[("type", Json.str "message"), ("agent", Json.str "gemini"),
              ("content", lookupD fs "content" (Json.str "")),
              ("complete", Json.bool (!truthy (lookupD fs "delta" (Json.bool false)))),
              ("timestamp", timestamp)]]
      else
        .ok [[("type", Json.str "user_message"), ("agent", Json.str "gemini"),
              ("content", lookupD fs "content" (Json.str "")),
              ("timestamp", timestamp)]]
    else if event_type.isS "tool_call" || event_type.isS "tool_use" then
      let tool_name_raw := pyOrJ (lookupD fs "tool_name" Json.null)
        (pyOrJ (lookupD fs "name" Json.null) (Json.str "unknown"))
      let tool_name := pyStr tool_name_raw
      let tool_args_raw :=
        let p := lookupD fs "parameters" Json.null
        if p.isNull then lookupD fs "args" Json.null else p
      let tool_args : List (String × Json) :=
        match tool_args_raw with
        | .obj afs => afs
        | _ => []
      let tool_name_lower := pyLower tool_name
      let file_path := lookupD tool_args "file_path" (lookupD tool_args "path" (Json.str ""))
      if containsSub tool_name_lower "write" && containsSub tool_name_lower "file" then
        .ok [[("type", Json.str "file_write"), ("agent", Json.str "gemini"),
              ("tool", Json.str tool_name), ("path", file_path),
              ("timestamp", timestamp)]]
      else if containsSub tool_name_lower "read" && containsSub tool_name_lower "file" then
        .ok [[("type", Json.str "file_read"), ("agent", Json.str "gemini"),
              ("tool", Json.str tool_name), ("path", file_path),
              ("timestamp", timestamp)]]
      else if tool_name_lower == "shell" || tool_name_lower == "bash" ||
          tool_name_lower == "execute" || tool_name_lower == "run_command" then
        .ok [[("type", Json.str "bash"), ("agent", Json.str "gemini"),
              ("tool", Json.str tool_name),
              ("command", lookupD tool_args "command" (Json.str "")),
              ("timestamp", timestamp)]]
      else
        .ok [[("type", Json.str "tool_use"), ("agent", Json.str "gemini"),
              ("tool", Json.str tool_name), ("args", Json.obj tool_args),
              ("timestamp", timestamp)]]
    else if event_type.isS "result" then
      onObj (lookupD fs "stats" (Json.obj [])) fun sfs =>
        .ok [[("type", Json.str "result"), ("agent", Json.str "gemini"),
              ("status", lookupD fs "status" (Json.str "success")),
              ("duration_ms", lookupD sfs "duration_ms" Json.null),
              ("usage", Json.obj [("total_tokens", lookupD sfs "total_tokens" (Json.num 0))]),
              ("timestamp", timestamp)]]
    else
      .ok [[("type", event_type), ("agent", Json.str "gemini"), ("raw", raw),
            ("timestamp", timestamp)]]

/-- `_normalize_claude` from `parsers.py`: Claude Code shares the Cursor
format; every resulting event gets its `agent` field overwritten. -/
def normalize_claude (raw : Json) (ts : String) : Except Unit (List CEvent) :=
  exBind (normalize_cursor raw ts) fun events =>
    .ok (events.map (fun e => setField e "agent" (Json.str "claude")))

/-- `normalize_events` from `parsers.py`: dispatch on the agent type, with a
passthrough for unsupported types. -/
def normalize_events (agent_type : String) (raw : Json) (ts : String) :
    Except Unit (List CEvent) :=
  if agent_type == "codex" then normalize_codex raw ts
  else if agent_type == "cursor" then normalize_cursor raw ts
  else if agent_type == "gemini" then normalize_gemini raw ts
  else if agent_type == "claude" then normalize_claude raw ts
  else
    onObj raw fun fs =>
      .ok [[("type", lookupD fs "type" (Json.str "unknown")),
            ("agent", Json.str agent_type), ("raw", raw), ("timestamp", Json.str ts)]]

/-- Agent status enumeration from `agents.py` (`AgentStatus`). -/
inductive AgentStatus where
  | running : AgentStatus
  | completed : AgentStatus
  | failed : AgentStatus
  | stopped : AgentStatus
deriving DecidableEq

/-- One non-empty, stripped line of the agent's stdout log: either it parses
as JSON (`json.loads` succeeds) or it is malformed. -/
inductive LogLine where
  | json (j : Json) : LogLine
  | malformed (s : String) : LogLine

/-- The part of an `AgentProcess` that `_read_new_events` mutates: the
canonical-event cache, the status and the completion timestamp. -/
structure RState where
  cache : List CEvent
  status : AgentStatus
  completed_at : Option Nat

/-- The per-event completion check inside `_read_new_events`: append the event
to the cache; if its type is `result`/`turn.completed`/`thread.completed`,
derive `COMPLETED` or `FAILED` from its status field. -/
def processEvent (now : Nat) (s : RState) (e : CEvent) : RState :=
  let s := { s with cache := s.cache ++ [e] }
  if (eget e "type").isS "result" || (eget e "type").isS "turn.completed" ||
      (eget e "type").isS "thread.completed" then
    if (eget e "status").isS "success" || (eget e "type").isS "turn.completed" then
      { s with status := .completed, completed_at := some now }
    else if (eget e "status").isS "error" then
      { s with status := .failed, completed_at := some now }
    else s
  else s

/-- The raw canonical event built for a line that fails to parse as JSON. -/
def rawLineEvent (line : String) (ts : String) : CEvent :=
  [("type", Json.str "raw"), ("content", Json.str line), ("timestamp", Json.str ts)]

/-- The line loop of `_read_new_events`: a malformed line becomes a `raw`
event; a JSON line is normalized and every resulting event is appended (with
the completion check).  The read offset is advanced before the loop, so when
normalization raises, the surrounding `except` swallows the exception and the
current line and all remaining lines of the batch are lost. -/
def processLines (agent_type ts : String) (now : Nat) (s : RState) :
    List LogLine → RState
  | [] => s
  | .malformed line :: rest =>
    processLines agent_type ts now { s with cache := s.cache ++ [rawLineEvent line ts] } rest
  | .json j :: rest =>
    match normalize_events agent_type j ts with
    | .error _ => s
    | .ok events => processLines agent_type ts now (events.foldl (processEvent now) s) rest

/-- The scalar and cached state of one `AgentProcess` record. -/
structure AgentRec where
  agent_id : String
  agent_type : String
  prompt : String
  cwd : Option String
  yolo : Bool
  pid : Option Int
  status : AgentStatus
  started_at : Nat
  completed_at : Option Nat
  events_cache : List CEvent
  pending : List LogLine

/-- `AgentProcess._read_new_events`: drain the unread tail of the stdout log
into the canonical-event cache (the offset advances past all pending lines
regardless of normalization faults). -/
def read_new_events (ts : String) (now : Nat) (r : AgentRec) : AgentRec :=
  let s := processLines r.agent_type ts now
    ⟨r.events_cache, r.status, r.completed_at⟩ r.pending
  { r with events_cache := s.cache, status := s.status,
           completed_at := s.completed_at, pending := [] }

/-- `AgentProcess.update_status_from_process`: when the process is gone, reap
it, drain remaining log lines, then (only if still `RUNNING`) infer the final
status from the exit code; persist metadata.  `live` is the set of live PIDs
(`os.kill(pid, 0)` succeeds), `ec` the exit code `os.waitpid` collects.  The
returned flag records whether `save_meta` ran. -/
def update_status_from_process (live : List Int) (ec : Int → Option Int)
    (now : Nat) (ts : String) (r : AgentRec) : AgentRec × Bool :=
  match r.pid with
  | none => (r, false)
  | some p =>
    if p ∈ live then (r, false)
    else
      let exit_code := ec p
      let r := read_new_events ts now r
      let r :=
        if r.status = .running then
          { r with
            status := if exit_code ≠ none ∧ exit_code ≠ some 0 then .failed else .completed,
            completed_at := some now }
        else if r.completed_at = none then
          { r with completed_at := some now }
        else r
      (r, true)

/-- `AGENT_COMMANDS` from `agents.py`, as a lookup from the (runtime) agent
type string to the command template. -/
def AGENT_COMMANDS_lookup : String → Option (List String)
  | "codex" => some ["codex", "exec", "{prompt}", "--full-auto", "--json"]
  | "cursor" => some ["cursor-agent", "-p", "--output-format", "stream-json", "{prompt}"]
  | "gemini" => some ["gemini", "-p", "{prompt}", "--output-format", "stream-json"]
  | "claude" => some ["claude", "-p", "{prompt}", "--output-format", "stream-json"]
  | _ => none

/-- `_normalize_mode_value`: strip and lowercase, keep only `safe`/`yolo`. -/
def normalize_mode_value : Option String → Option String
  | none => none
  | some v =>
    let normalized := pyLower (pyTrim v)
    if normalized == "safe" || normalized == "yolo" then some normalized else none

/-- `resolve_mode_flags`: explicit mode string wins, then the boolean flag,
then the (validated) default mode. -/
def resolve_mode_flags (requested_mode : Option String) (requested_yolo : Option Bool)
    (default_mode : String) : Except String (String × Bool) :=
  match normalize_mode_value (some default_mode) with
  | none => .error ("Invalid default mode \x27" ++ default_mode ++ "\x27. Use \x27safe\x27 or \x27yolo\x27.")
  | some normalized_default =>
    match requested_mode with
    | some rm =>
      match normalize_mode_value (some rm) with
      | none => .error ("Invalid mode \x27" ++ rm ++ "\x27. Use \x27safe\x27 or \x27yolo\x27.")
      | some nm => .ok (nm, nm == "yolo")
    | none =>
      match requested_yolo with
      | some y => .ok (if y then "yolo" else "safe", y)
      | none => .ok (normalized_default, normalized_default == "yolo")

/-- `check_cli_available`: template lookup (unknown type is an error), then
PATH resolution of the template's executable via the ambient `which`. -/
def check_cli_available (which : String → Option String) (agent_type : String) :
    Except String String :=
  match AGENT_COMMANDS_lookup agent_type with
  | none => .error ("Unknown agent type: " ++ agent_type)
  | some cmd_template =>
    match which (cmd_template.headD "") with
    | some path => .ok path
    | none => .error ("CLI tool \x27" ++ cmd_template.headD "" ++ "\x27 not found in PATH. Install it first.")

/-- Python `\s` on the lowered prompt. -/
def isPySpace (c : Char) : Bool :=
  c == ' ' || c == '\t' || c == '\n' || c == '\r' || c == '\x0b' || c == '\x0c'

/-- Python `\w`. -/
def isPyWord (c : Char) : Bool :=
  c.isAlphanum || c == '_'

/-- The trailing group of the unsafe-flag pattern: whitespace, end of string,
or a character that is neither a word character nor a hyphen. -/
def yoloTailOk : List Char → Bool
  | [] => true
  | c :: _ => isPySpace c || (!isPyWord c && c != '-')

/-- After the two dashes: skip optional whitespace, then require the literal
`yolo` followed by a valid tail. -/
def yoloAfterDashes (cs : List Char) : Bool :=
  match cs.dropWhile isPySpace with
  | 'y' :: 'o' :: 'l' :: 'o' :: rest => yoloTailOk rest
  | _ => false

/-- Match the body `--\s*yolo(...)` at one position. -/
def matchYoloAt : List Char → Bool
  | '-' :: '-' :: rest => yoloAfterDashes rest
  | _ => false

/-- Scan every position preceded by whitespace. -/
def hasYoloScan : List Char → Bool
  | [] => false
  | c :: rest => (isPySpace c && matchYoloAt rest) || hasYoloScan rest

/-- `AgentManager._prompt_has_yolo_flag`: the word-boundary-aware search for
the pattern `(^|\s)--\s*yolo(\s|$|[^\w-])` over the lowercased prompt. -/
def prompt_has_yolo_flag (prompt : String) : Bool :=
  let cs := (pyLower prompt).data
  matchYoloAt cs || hasYoloScan cs

/-- `AgentManager._apply_yolo_mode`: swap `--full-auto` for `--yolo`; if
nothing was replaced, append `--yolo` only for codex. -/
def apply_yolo_mode (agent_type : String) (cmd : List String) : List String :=
  let folded := cmd.foldl
    (fun (acc : List String × Bool) part =>
      if part == "--full-auto" then (acc.1 ++ ["--yolo"], true) else (acc.1 ++ [part], acc.2))
    ([], false)
  if !folded.2 && agent_type == "codex" then folded.1 ++ ["--yolo"] else folded.1

/-- `AgentManager._build_command`: template lookup, prompt safety scan in safe
mode, placeholder substitution, then yolo rewriting or the residual `--yolo`
command check. -/
def build_command (agent_type prompt : String) (yolo : Bool) :
    Except String (List String) :=
  match AGENT_COMMANDS_lookup agent_type with
  | none => .error ("Unknown agent type: " ++ agent_type)
  | some cmd_template =>
    if !yolo && prompt_has_yolo_flag prompt then
      .error "Safety: --yolo flag requires explicit yolo=True (default mode is --full-auto)."
    else
      let cmd := cmd_template.map (fun part => pyReplace part "{prompt}" prompt)
      if yolo then
        .ok (apply_yolo_mode agent_type cmd)
      else if cmd.contains "--yolo" then
        .error "Safety: --yolo flag detected in command. Enable yolo=True to run in unsafe mode."
      else
        .ok cmd

/-- Outcome of the `subprocess.Popen` call: a successful detached launch with
a fresh PID, an `OSError`, or any other exception. -/
inductive LaunchOutcome where
  | ok (pid : Int) : LaunchOutcome
  | osError : LaunchOutcome
  | otherExc : LaunchOutcome
deriving DecidableEq

/-- What the filesystem says about a requested working directory. -/
inductive CwdKind where
  | missing : CwdKind
  | notDir : CwdKind
  | isDir : CwdKind
deriving DecidableEq

/-- The in-memory and on-disk state of one `AgentManager`: the tracked
records, the set of per-agent directories under the storage root, and the
configuration. -/
structure MgrState where
  agents : List (String × AgentRec)
  dirs : List String
  maxConcurrent : Nat
  maxAgents : Nat
  defaultMode : String

/-- Create a per-agent directory under the storage root (idempotent, like
`mkdir(parents=True, exist_ok=True)`). -/
def insertDir (d : String) (ds : List String) : List String :=
  if d ∈ ds then ds else ds ++ [d]

/-- One step of the status-refresh pass: refresh one tracked record; when the
record was reconciled (its dead process reaped), `save_meta` ran, ensuring its
per-agent directory exists. -/
def refreshStep (live : List Int) (ec : Int → Option Int) (now : Nat) (ts : String)
    (acc : List (String × AgentRec) × List String) (pair : String × AgentRec) :
    List (String × AgentRec) × List String :=
  let upd := update_status_from_process live ec now ts pair.2
  (acc.1 ++ [(pair.1, upd.1)],
   if upd.2 then insertDir pair.1 acc.2 else acc.2)

/-- The status-refresh pass of `list_all`: run `update_status_from_process`
on every tracked record in order. -/
def refreshAll (live : List Int) (ec : Int → Option Int) (now : Nat) (ts : String)
    (st : MgrState) : MgrState :=
  let folded := st.agents.foldl (refreshStep live ec now ts) ([], st.dirs)
  { st with agents := folded.1, dirs := folded.2 }

/-- Number of records whose (already refreshed) status is `RUNNING` — the
count `list_running` reports. -/
def countRunning (st : MgrState) : Nat :=
  (st.agents.filter (fun pair => pair.2.status = .running)).length

/-- Stable insertion into a list sorted by completion time (Python's stable
`sort(key=completed_at or datetime.min)`). -/
def sortInsert (key : String × AgentRec → Nat) (x : String × AgentRec) :
    List (String × AgentRec) → List (String × AgentRec)
  | [] => [x]
  | y :: ys => if key x < key y then x :: y :: ys else y :: sortInsert key x ys

/-- Stable sort by completion time. -/
def sortByCompleted (l : List (String × AgentRec)) : List (String × AgentRec) :=
  l.foldl (fun acc x => sortInsert (fun pair => (pair.2.completed_at).getD 0) x acc) []

/-- `AgentManager._cleanup_old_agents`: after a successful spawn, evict the
oldest terminal records beyond `max_agents`, removing both the in-memory entry
and the on-disk directory. -/
def cleanup_old_agents (live : List Int) (ec : Int → Option Int) (now : Nat)
    (ts : String) (st : MgrState) : MgrState :=
  let st := refreshAll live ec now ts st
  let completed := st.agents.filter (fun pair => pair.2.status ≠ .running)
  if completed.length > st.maxAgents then
    let sorted := sortByCompleted completed
    (sorted.take (completed.length - st.maxAgents)).foldl
      (fun st pair =>
        { st with agents := st.agents.filter (fun q => q.1 ≠ pair.1),
                  dirs := st.dirs.erase pair.1 })
      st
  else st

/-- `AgentManager._cleanup_partial_agent`: drop the in-memory reference and
delete the partially created directory. -/
def cleanup_partial_agent (agent_id : String) (st : MgrState) : MgrState :=
  { st with agents := st.agents.filter (fun q => q.1 ≠ agent_id),
            dirs := st.dirs.erase agent_id }

/-- The record `spawn` creates right before launching the child. -/
def newAgentRec (agent_id agent_type prompt : String) (cwd : Option String)
    (yolo : Bool) (now : Nat) : AgentRec :=
  { agent_id := agent_id, agent_type := agent_type, prompt := prompt,
    cwd := cwd, yolo := yolo, pid := none, status := .running,
    started_at := now, completed_at := none, events_cache := [], pending := [] }

/-- The post-validation phase of `AgentManager.spawn`: create the per-agent
directory, launch the detached child, record the PID, persist metadata; on
any failure roll back via `_cleanup_partial_agent` (and, after a successful
launch, terminate the process group, tolerating an already-exited child). -/
def spawn_launch (st : MgrState)
    (live : List Int) (ec : Int → Option Int) (now : Nat) (ts : String)
    (mkdirOk : Bool) (launch : LaunchOutcome) (childDiesEarly : Bool) (saveOk : Bool)
    (agent_id : String) (agent_type prompt : String) (cwd : Option String)
    (resolved_yolo : Bool) :
    MgrState × List Int × Except String String :=
  if !mkdirOk then
    ({ st with agents := st.agents.filter (fun q => q.1 ≠ agent_id) },
     live, .error "Failed to create agent directory")
  else
    let st := { st with dirs := insertDir agent_id st.dirs }
    match launch with
    | .osError =>
      (cleanup_partial_agent agent_id st, live, .error "Failed to spawn agent")
    | .otherExc =>
      (cleanup_partial_agent agent_id st, live,
       .error "spawn raised an unexpected exception")
    | .ok pid =>
      let live := pid :: live
      let live := if childDiesEarly then live.erase pid else live
      if !saveOk then
        let live := if pid ∈ live then live.erase pid else live
        (cleanup_partial_agent agent_id st, live,
         .error ("Failed to persist metadata for agent " ++ agent_id))
      else
        let rec0 := { newAgentRec agent_id agent_type prompt cwd resolved_yolo now
                        with pid := some pid }
        let st := { st with agents := st.agents ++ [(agent_id, rec0)] }
        let st := cleanup_old_agents live ec now ts st
        (st, live, .ok agent_id)

/-- `AgentManager.spawn`, with the ambient effects as explicit parameters:
`which` is PATH resolution, `cwdK` the filesystem's verdict on a working
directory, `live`/`ec` the process table, `mkdirOk`/`launch`/`saveOk` the
outcomes of directory creation, process launch and metadata persistence, and
`childDiesEarly` whether a successfully launched child exits on its own before
the rollback path signals it.  The validations run in source order: mode
resolution, concurrency admission after a full status refresh, CLI
availability (which also rejects unknown agent types), working-directory
checks, command building; then the launch phase.  Returns the final registry
state, the final set of live PIDs, and either the new agent id or the raised
error. -/
def spawn (st : MgrState)
    (which : String → Option String) (cwdK : String → CwdKind)
    (live : List Int) (ec : Int → Option Int) (now : Nat) (ts : String)
    (mkdirOk : Bool) (launch : LaunchOutcome) (childDiesEarly : Bool) (saveOk : Bool)
    (agent_id : String) (agent_type prompt : String) (cwd : Option String)
    (yolo : Option Bool) (mode : Option String) :
    MgrState × List Int × Except String String :=
  match resolve_mode_flags mode yolo st.defaultMode with
  | .error e => (st, live, .error e)
  | .ok resolved =>
    let st := refreshAll live ec now ts st
    if st.maxConcurrent ≤ countRunning st then
      (st, live, .error ("Maximum concurrent agents (" ++ toString st.maxConcurrent ++
        ") reached. Wait for an agent to complete or stop one first."))
    else
      match check_cli_available which agent_type with
      | .error e => (st, live, .error e)
      | .ok _path =>
        let cwdErr : Option String :=
          match cwd with
          | none => none
          | some c =>
            match cwdK c with
            | .missing => some ("Working directory does not exist: " ++ c)
            | .notDir => some ("Working directory is not a directory: " ++ c)
            | .isDir => none
        match cwdErr with
        | some e => (st, live, .error e)
        | none =>
          match build_command agent_type prompt resolved.2 with
          | .error e => (st, live, .error e)
          | .ok _cmd =>
            spawn_launch st live ec now ts mkdirOk launch childDiesEarly saveOk
              agent_id agent_type prompt cwd resolved.2

/-- The accumulation of the `final_message` field in the event loop of
`summarize_events` (`summarizer.py`): an event whose `type` is `"message"`
overwrites the final message with its `content` whenever that content is
truthy; no other branch of the loop assigns `final_message`. -/
def final_message_step (acc : Option Json) (e : CEvent) : Option Json :=
  if (eget e "type").isS "message" then
    let content := lookupD e "content" (Json.str "")
    if truthy content then some content else acc
  else acc

/-- The `final_message` field of `summarize_events agent_id agent_type status
events`: the left fold of `final_message_step` over the event list, starting
from `None`. -/
def summarize_final_message (events : List CEvent) : Option Json :=
  events.foldl final_message_step none

/-- The content of the most recent event with type `"message"` and truthy
content (scanning from the most recent event backward). -/
def last_contentful_message : List CEvent → Option Json
  | [] => none
  | e :: rest =>
    match last_contentful_message rest with
    | some v => some v
    | none =>
      if (eget e "type").isS "message" && truthy (lookupD e "content" (Json.str "")) then
        some (lookupD e "content" (Json.str ""))
      else none

/-- Modelled from the spec: "the most recent complete (non-delta) message as
the final message" — the content of the most recent event with type
`"message"` whose completion flag is truthy. -/
def spec_final_message : List CEvent → Option Json
  | [] => none
  | e :: rest =>
    match spec_final_message rest with
    | some v => some v
    | none =>
      if (eget e "type").isS "message" && truthy (eget e "complete") then
        some (eget e "content")
      else none

/-- The top-level `type` strings that a vendor translation matches with a
dedicated branch; every other top-level type reaches the vendor's default
passthrough. -/
def recognizedTop (agent_type : String) (t : Json) : Bool :=
  if agent_type == "codex" then
    t.isS "thread.started" || t.isS "turn.started" || t.isS "item.completed" ||
      t.isS "turn.completed"
  else if agent_type == "cursor" || agent_type == "claude" then
    t.isS "system" || t.isS "thinking" || t.isS "assistant" || t.isS "result" ||
      t.isS "tool_result"
  else if agent_type == "gemini" then
    t.isS "init" || t.isS "message" || t.isS "tool_call" || t.isS "tool_use" ||
      t.isS "result"
  else false

instance {ε α : Type} [DecidableEq ε] [DecidableEq α] : DecidableEq (Except ε α)
  | .ok a, .ok b =>
    if h : a = b then isTrue (by rw [h]) else isFalse (by intro hc; cases hc; exact h rfl)
  | .error a, .error b =>
    if h : a = b then isTrue (by rw [h]) else isFalse (by intro hc; cases hc; exact h rfl)
  | .ok _, .error _ => isFalse (by intro hc; cases hc)
  | .error _, .ok _ => isFalse (by intro hc; cases hc)


/-- The property "whenever this normalization result is a successfully
returned event list, that list is non-empty". -/
def okNonempty (r : Except Unit (List CEvent)) : Prop :=
  ∀ l, r = .ok l → l ≠ []

/-- Concrete event list with one complete and one later delta message, used to
compare the implemented and the specified final-message extraction. -/
def c8Events : List CEvent :=
  [[("type", Json.str "message"), ("content", Json.str "done"), ("complete", Json.bool true)],
   [("type", Json.str "message"), ("content", Json.str "part"), ("complete", Json.bool false)]]

/-- Concrete record in the terminal `STOPPED` state whose stdout log still
holds one unread in-stream completion line. -/
def c1StoppedRec : AgentRec :=
  { agent_id := "a1", agent_type := "cursor", prompt := "p", cwd := none,
    yolo := false, pid := some 7, status := .stopped, started_at := 0,
    completed_at := some 5, events_cache := [],
    pending := [LogLine.json (Json.obj [("type", Json.str "result"),
      ("subtype", Json.str "success")])] }

/-- Concrete record in the terminal `STOPPED` state whose stdout log has been
fully drained. -/
def c1DrainedRec : AgentRec :=
  { agent_id := "a2", agent_type := "codex", prompt := "p", cwd := none,
    yolo := false, pid := some 7, status := .stopped, started_at := 0,
    completed_at := some 5, events_cache := [], pending := [] }

/-- Concrete registry with no tracked agents and no on-disk directories. -/
def c2EmptyState : MgrState := ⟨[], [], 10, 50, "safe"⟩

/-- Concrete record whose process (PID 5) may be alive or dead depending on
the ambient live set. -/
def c5RunningRec : AgentRec :=
  { agent_id := "r1", agent_type := "codex", prompt := "p", cwd := none,
    yolo := false, pid := some 5, status := .running, started_at := 0,
    completed_at := none, events_cache := [], pending := [] }

/-- Concrete registry with concurrency cap 1 tracking one `RUNNING` record. -/
def c5State : MgrState := ⟨[("r1", c5RunningRec)], ["r1"], 1, 50, "safe"⟩

theorem okNonempty_error : okNonempty (.error ()) := by
  intro l h; exact Except.noConfusion h

theorem okNonempty_ok_cons (e : CEvent) (rest : List CEvent) : okNonempty (.ok (e :: rest)) := by
  intro l h; injection h with h; subst h; simp

theorem okNonempty_ite (c : Prop) [Decidable c] {a b : Except Unit (List CEvent)}
    (ha : okNonempty a) (hb : okNonempty b) : okNonempty (if c then a else b) := by
  by_cases h : c
  · simpa [h] using ha
  · simpa [h] using hb

theorem okNonempty_onObj (j : Json) (f : List (String × Json) → Except Unit (List CEvent))
    (hf : ∀ fs, okNonempty (f fs)) : okNonempty (onObj j f) := by
  cases j <;> first
    | exact okNonempty_error
    | exact hf _

theorem okNonempty_exBind {α : Type} (x : Except Unit α) (f : α → Except Unit (List CEvent))
    (hf : ∀ v, x = .ok v → okNonempty (f v)) : okNonempty (exBind x f) := by
  cases x with
  | error e => cases e; exact okNonempty_error
  | ok v => exact hf v rfl

theorem okNonempty_isEmpty_ite (u : CEvent) (l : List CEvent) :
    okNonempty (.ok (if l.isEmpty then [u] else l)) := by
  cases l with
  | nil => exact okNonempty_ok_cons _ _
  | cons e rest => exact okNonempty_ok_cons _ _

theorem cursorAssistant_nonempty (fs : List (String × Json)) (ts : String) :
    okNonempty (cursorAssistant fs ts) := by
  unfold cursorAssistant
  apply okNonempty_onObj; intro mfs
  apply okNonempty_exBind; intro blocks _
  apply okNonempty_exBind; intro acc _
  exact okNonempty_isEmpty_ite _ _

theorem normalize_codex_nonempty (raw : Json) (ts : String) :
    okNonempty (normalize_codex raw ts) := by
  unfold normalize_codex
  apply okNonempty_onObj; intro fs
  repeat' first
    | exact okNonempty_ok_cons _ _
    | (apply okNonempty_ite)
    | (apply okNonempty_onObj; intro _)

theorem normalize_cursor_nonempty (raw : Json) (ts : String) :
    okNonempty (normalize_cursor raw ts) := by
  unfold normalize_cursor
  apply okNonempty_onObj; intro fs
  repeat' first
    | exact okNonempty_ok_cons _ _
    | exact cursorAssistant_nonempty _ _
    | (apply okNonempty_ite)

theorem normalize_gemini_nonempty (raw : Json) (ts : String) :
    okNonempty (normalize_gemini raw ts) := by
  unfold normalize_gemini
  apply okNonempty_onObj; intro fs
  repeat' first
    | exact okNonempty_ok_cons _ _
    | (apply okNonempty_ite)
    | (apply okNonempty_onObj; intro _)

theorem normalize_claude_nonempty (raw : Json) (ts : String) :
    okNonempty (normalize_claude raw ts) := by
  unfold normalize_claude
  apply okNonempty_exBind
  intro events hev
  intro l h
  injection h with h
  subst h
  simp only [ne_eq, List.map_eq_nil_iff]
  exact normalize_cursor_nonempty raw ts events hev

theorem normalize_events_nonempty (agent_type : String) (raw : Json) (ts : String) :
    okNonempty (normalize_events agent_type raw ts) := by
  unfold normalize_events
  repeat' first
    | exact normalize_codex_nonempty _ _
    | exact normalize_cursor_nonempty _ _
    | exact normalize_gemini_nonempty _ _
    | exact normalize_claude_nonempty _ _
    | (apply okNonempty_ite)
    | (apply okNonempty_onObj; intro _; exact okNonempty_ok_cons _ _)

theorem processEvent_cache (now : Nat) (s : RState) (e : CEvent) :
    (processEvent now s e).cache = s.cache ++ [e] := by
  unfold processEvent
  repeat' split
  all_goals rfl

theorem foldl_processEvent_cache (now : Nat) (events : List CEvent) :
    ∀ s : RState, (events.foldl (processEvent now) s).cache = s.cache ++ events := by
  induction events with
  | nil => intro s; simp
  | cons e rest ih =>
    intro s
    simp only [List.foldl_cons]
    rw [ih (processEvent now s e), processEvent_cache]
    simp

theorem processLines_cache_length (agent_type ts : String) (now : Nat)
    (lines : List LogLine) :
    ∀ s : RState,
      (∀ j, LogLine.json j ∈ lines → ∃ evs, normalize_events agent_type j ts = .ok evs) →
      s.cache.length + lines.length ≤ (processLines agent_type ts now s lines).cache.length := by
  induction lines with
  | nil => intro s _; simp [processLines]
  | cons line rest ih =>
    intro s hok
    cases line with
    | malformed str =>
      have h := ih { s with cache := s.cache ++ [rawLineEvent str ts] }
        (fun j hj => hok j (by simp [hj]))
      simp only [processLines] at *
      simp only [List.length_append, List.length_cons] at h ⊢
      omega
    | json j =>
      obtain ⟨evs, hevs⟩ := hok j (by simp)
      have hne : evs ≠ [] := normalize_events_nonempty agent_type j ts evs hevs
      have hlen : 1 ≤ evs.length := by
        cases evs with
        | nil => exact absurd rfl hne
        | cons _ _ => simp
      have h := ih (evs.foldl (processEvent now) s)
        (fun j' hj' => hok j' (by simp [hj']))
      simp only [processLines, hevs]
      rw [foldl_processEvent_cache] at h
      simp only [List.length_append, List.length_cons] at h ⊢
      omega

theorem foldl_final_message_step (events : List CEvent) :
    ∀ acc : Option Json,
      events.foldl final_message_step acc =
        match last_contentful_message events with
        | some v => some v
        | none => acc := by
  induction events with
  | nil => intro acc; simp [last_contentful_message]
  | cons e rest ih =>
    intro acc
    simp only [List.foldl_cons, last_contentful_message]
    rw [ih (final_message_step acc e)]
    cases hrest : last_contentful_message rest with
    | some v => simp
    | none =>
      by_cases hmsg : (eget e "type").isS "message" = true
      · by_cases hc : truthy (lookupD e "content" (Json.str "")) = true
        · simp [final_message_step, hmsg, hc]
        · simp [final_message_step, hmsg, hc]
      · simp [final_message_step, hmsg]

theorem summarize_final_message_eq (events : List CEvent) :
    summarize_final_message events = last_contentful_message events := by
  unfold summarize_final_message
  rw [foldl_final_message_step]
  cases last_contentful_message events <;> rfl

theorem read_new_events_drained (ts : String) (now : Nat) (r : AgentRec)
    (h : r.pending = []) : (read_new_events ts now r).status = r.status := by
  unfold read_new_events
  rw [h]
  rfl

theorem update_status_terminal_stable (live : List Int) (ec : Int → Option Int)
    (now : Nat) (ts : String) (r : AgentRec)
    (hterm : r.status ≠ .running) (hdr : r.pending = []) :
    (update_status_from_process live ec now ts r).1.status = r.status := by
  unfold update_status_from_process
  cases hp : r.pid with
  | none => rfl
  | some p =>
    simp only []
    split
    · rfl
    · have hread : (read_new_events ts now r).status = r.status := read_new_events_drained ts now r hdr
      split
      · rename_i hrun
        rw [hread] at hrun
        exact absurd hrun hterm
      · split <;> simp [hread]

theorem insertDir_mem (d x : String) (ds : List String) :
    d ∈ insertDir x ds → d ∈ ds ∨ d = x := by
  unfold insertDir
  split
  · exact fun h => Or.inl h
  · intro h
    rcases List.mem_append.mp h with h | h
    · exact Or.inl h
    · simp at h; exact Or.inr h

theorem insertDir_erase_self (d : String) (ds : List String) (h : d ∉ ds) :
    (insertDir d ds).erase d = ds := by
  unfold insertDir
  rw [if_neg h, List.erase_append_right _ h]
  simp

theorem filter_keys_not_mem (aid : String) (l : List (String × AgentRec)) :
    aid ∉ (l.filter (fun q => q.1 ≠ aid)).map Prod.fst := by
  intro h
  simp only [List.mem_map, List.mem_filter, decide_eq_true_eq] at h
  obtain ⟨q, ⟨_, hne⟩, heq⟩ := h
  exact hne heq

theorem foldl_refreshStep_dirs (live : List Int) (ec : Int → Option Int) (now : Nat)
    (ts : String) (ags : List (String × AgentRec)) :
    ∀ acc : List (String × AgentRec) × List String, ∀ d : String,
      d ∈ (ags.foldl (refreshStep live ec now ts) acc).2 →
      d ∈ acc.2 ∨ d ∈ ags.map Prod.fst := by
  induction ags with
  | nil => intro acc d h; exact Or.inl h
  | cons pair rest ih =>
    intro acc d h
    rcases ih (refreshStep live ec now ts acc pair) d h with h1 | h1
    · simp only [refreshStep] at h1
      split at h1
      · rcases insertDir_mem d pair.1 acc.2 h1 with h2 | h2
        · exact Or.inl h2
        · right; simp [h2]
      · exact Or.inl h1
    · right; simp [h1]

theorem refreshAll_dirs_mem (live : List Int) (ec : Int → Option Int) (now : Nat)
    (ts : String) (st : MgrState) (d : String) :
    d ∈ (refreshAll live ec now ts st).dirs → d ∈ st.dirs ∨ d ∈ st.agents.map Prod.fst := by
  unfold refreshAll
  exact foldl_refreshStep_dirs live ec now ts st.agents ([], st.dirs) d

theorem spawn_validated
    (st : MgrState) (which : String → Option String) (cwdK : String → CwdKind)
    (live : List Int) (ec : Int → Option Int) (now : Nat) (ts : String)
    (mkdirOk : Bool) (launch : LaunchOutcome) (childDiesEarly : Bool) (saveOk : Bool)
    (agent_id agent_type prompt : String) (cwd : Option String)
    (yolo : Option Bool) (mode : Option String)
    (rm : String × Bool) (path : String) (cmd : List String)
    (hmode : resolve_mode_flags mode yolo st.defaultMode = .ok rm)
    (hcap : countRunning (refreshAll live ec now ts st) < st.maxConcurrent)
    (hcli : check_cli_available which agent_type = .ok path)
    (hcwd : ∀ c, cwd = some c → cwdK c = .isDir)
    (hbuild : build_command agent_type prompt rm.2 = .ok cmd) :
    spawn st which cwdK live ec now ts mkdirOk launch childDiesEarly saveOk
      agent_id agent_type prompt cwd yolo mode =
    spawn_launch (refreshAll live ec now ts st) live ec now ts mkdirOk launch
      childDiesEarly saveOk agent_id agent_type prompt cwd rm.2 := by
  unfold spawn
  rw [hmode]
  simp only []
  have hcap2 : ¬ ((refreshAll live ec now ts st).maxConcurrent ≤
      countRunning (refreshAll live ec now ts st)) := by
    have hmx : (refreshAll live ec now ts st).maxConcurrent = st.maxConcurrent := rfl
    rw [hmx]
    exact Nat.not_le.mpr hcap
  rw [if_neg hcap2, hcli]
  simp only []
  cases cwd with
  | none =>
    simp only []
    rw [hbuild]
  | some c =>
    have hdir := hcwd c rfl
    simp only [hdir]
    rw [hbuild]

theorem spawn_launch_rollback
    (st : MgrState) (live : List Int) (ec : Int → Option Int) (now : Nat) (ts : String)
    (mkdirOk : Bool) (launch : LaunchOutcome) (childDiesEarly saveOk : Bool)
    (agent_id agent_type prompt : String) (cwd : Option String) (resolved_yolo : Bool)
    (hfail : mkdirOk = false ∨ launch = .osError ∨ launch = .otherExc ∨ saveOk = false)
    (hfresh_dir : agent_id ∉ st.dirs) :
    (∃ e, (spawn_launch st live ec now ts mkdirOk launch childDiesEarly saveOk
        agent_id agent_type prompt cwd resolved_yolo).2.2 = .error e) ∧
    agent_id ∉ (spawn_launch st live ec now ts mkdirOk launch childDiesEarly saveOk
        agent_id agent_type prompt cwd resolved_yolo).1.dirs ∧
    agent_id ∉ ((spawn_launch st live ec now ts mkdirOk launch childDiesEarly saveOk
        agent_id agent_type prompt cwd resolved_yolo).1.agents.map Prod.fst) ∧
    (∀ p, launch = .ok p → p ∉ live →
      p ∉ (spawn_launch st live ec now ts mkdirOk launch childDiesEarly saveOk
        agent_id agent_type prompt cwd resolved_yolo).2.1) := by
  have hdirs : (insertDir agent_id st.dirs).erase agent_id = st.dirs :=
    insertDir_erase_self agent_id st.dirs hfresh_dir
  cases mkdirOk with
  | false =>
    unfold spawn_launch
    simp only [Bool.not_false, if_true]
    exact ⟨⟨_, rfl⟩, hfresh_dir, filter_keys_not_mem _ _, fun p _ h => h⟩
  | true =>
    cases launch with
    | osError =>
      unfold spawn_launch
      simp only [Bool.not_true, Bool.false_eq_true, if_false, cleanup_partial_agent]
      refine ⟨⟨_, rfl⟩, ?_, filter_keys_not_mem _ _, fun p hp => LaunchOutcome.noConfusion hp⟩
      simpa [hdirs] using hfresh_dir
    | otherExc =>
      unfold spawn_launch
      simp only [Bool.not_true, Bool.false_eq_true, if_false, cleanup_partial_agent]
      refine ⟨⟨_, rfl⟩, ?_, filter_keys_not_mem _ _, fun p hp => LaunchOutcome.noConfusion hp⟩
      simpa [hdirs] using hfresh_dir
    | ok pid =>
      cases saveOk with
      | true =>
        rcases hfail with h | h | h | h <;> simp_all
      | false =>
        unfold spawn_launch
        simp only [Bool.not_true, Bool.false_eq_true, if_false, Bool.not_false, if_true,
          cleanup_partial_agent]
        refine ⟨⟨_, rfl⟩, ?_, filter_keys_not_mem _ _, ?_⟩
        · simpa [hdirs] using hfresh_dir
        · intro p hp hnl
          injection hp with hp
          subst hp
          cases childDiesEarly with
          | true =>
            simp only [if_true, List.erase_cons_head]
            rw [if_neg hnl]
            exact hnl
          | false =>
            simp only [Bool.false_eq_true, if_false]
            rw [if_pos (List.mem_cons_self pid live), List.erase_cons_head]
            exact hnl

theorem or_false_split {a b : Bool} (h : (a || b) = false) : a = false ∧ b = false := by
  cases a <;> cases b <;> simp_all

/-- C1 counterexample: a record whose status is the terminal `STOPPED` is
changed back to `COMPLETED` by a status refresh (`get`/`list` path) when its
unread log tail still contains an in-stream completion event — so `Running` is
not the only state from which a transition is possible. -/
theorem C1_counterexample :
    c1StoppedRec.status = .stopped ∧
    (update_status_from_process [] (fun _ => some 0) 9 "T" c1StoppedRec).1.status = .completed :=
  ⟨rfl, rfl⟩

/-- C1 amended: once a record's status is terminal AND its log tail has been
fully drained, no subsequent status refresh (`update_status_from_process`, the
core of `get`/`list_all`/`list_running`/`list_completed`) or event read
(`_read_new_events`) ever changes the status again; a terminal record with an
unread in-stream completion event, however, can still be flipped (see the
counterexample). -/
theorem C1_terminal_stable_when_drained (live : List Int) (ec : Int → Option Int)
    (now : Nat) (ts : String) (r : AgentRec)
    (hterm : r.status ≠ .running) (hdrained : r.pending = []) :
    (update_status_from_process live ec now ts r).1.status = r.status ∧
    (read_new_events ts now r).status = r.status :=
  ⟨update_status_terminal_stable live ec now ts r hterm hdrained,
   read_new_events_drained ts now r hdrained⟩

/-- C1 witness: the amended statement at a concrete drained `STOPPED`
record. -/
theorem C1_terminal_stable_witness :
    c1DrainedRec.status ≠ .running ∧ c1DrainedRec.pending = [] ∧
    (update_status_from_process [] (fun _ => some 0) 9 "T" c1DrainedRec).1.status =
      c1DrainedRec.status :=
  ⟨by decide, rfl,
   (C1_terminal_stable_when_drained [] (fun _ => some 0) 9 "T" c1DrainedRec
      (by decide) rfl).1⟩

/-- C2: for every spawn call that fails after validation passes (directory
creation fails, the OS launch raises, or metadata persistence fails after a
successful launch), the registry rolls back fully: the call returns an error,
the per-agent directory is absent from the storage root, the agent id has no
in-memory entry (hence does not appear in `list_all`), and a freshly launched
child PID is no longer live (the kill tolerates a child that already
exited — covered by the `childDiesEarly` parameter). -/
theorem C2_spawn_failure_rollback
    (st : MgrState) (which : String → Option String) (cwdK : String → CwdKind)
    (live : List Int) (ec : Int → Option Int) (now : Nat) (ts : String)
    (mkdirOk : Bool) (launch : LaunchOutcome) (childDiesEarly saveOk : Bool)
    (agent_id agent_type prompt : String) (cwd : Option String)
    (yolo : Option Bool) (mode : Option String)
    (rm : String × Bool) (path : String) (cmd : List String)
    (hmode : resolve_mode_flags mode yolo st.defaultMode = .ok rm)
    (hcap : countRunning (refreshAll live ec now ts st) < st.maxConcurrent)
    (hcli : check_cli_available which agent_type = .ok path)
    (hcwd : ∀ c, cwd = some c → cwdK c = .isDir)
    (hbuild : build_command agent_type prompt rm.2 = .ok cmd)
    (hfail : mkdirOk = false ∨ launch = .osError ∨ launch = .otherExc ∨ saveOk = false)
    (hfresh_dir : agent_id ∉ st.dirs)
    (hfresh_key : agent_id ∉ st.agents.map Prod.fst) :
    (∃ e, (spawn st which cwdK live ec now ts mkdirOk launch childDiesEarly saveOk
        agent_id agent_type prompt cwd yolo mode).2.2 = .error e) ∧
    agent_id ∉ (spawn st which cwdK live ec now ts mkdirOk launch childDiesEarly saveOk
        agent_id agent_type prompt cwd yolo mode).1.dirs ∧
    agent_id ∉ ((spawn st which cwdK live ec now ts mkdirOk launch childDiesEarly saveOk
        agent_id agent_type prompt cwd yolo mode).1.agents.map Prod.fst) ∧
    (∀ p, launch = .ok p → p ∉ live →
      p ∉ (spawn st which cwdK live ec now ts mkdirOk launch childDiesEarly saveOk
        agent_id agent_type prompt cwd yolo mode).2.1) := by
  rw [spawn_validated st which cwdK live ec now ts mkdirOk launch childDiesEarly saveOk
    agent_id agent_type prompt cwd yolo mode rm path cmd hmode hcap hcli hcwd hbuild]
  apply spawn_launch_rollback _ _ _ _ _ _ _ _ _ _ _ _ _ _ hfail
  intro hmem
  rcases refreshAll_dirs_mem live ec now ts st agent_id hmem with h | h
  · exact hfresh_dir h
  · exact hfresh_key h

/-- C2 witness: the rollback contract at a concrete spawn whose OS launch
raises. -/
theorem C2_spawn_failure_rollback_witness :
    (∃ e, (spawn c2EmptyState (fun _ => some "/bin/codex") (fun _ => CwdKind.isDir)
        [] (fun _ => none) 0 "T" true LaunchOutcome.osError false true
        "id1" "codex" "p" none none none).2.2 = .error e) ∧
    "id1" ∉ (spawn c2EmptyState (fun _ => some "/bin/codex") (fun _ => CwdKind.isDir)
        [] (fun _ => none) 0 "T" true LaunchOutcome.osError false true
        "id1" "codex" "p" none none none).1.dirs ∧
    "id1" ∉ ((spawn c2EmptyState (fun _ => some "/bin/codex") (fun _ => CwdKind.isDir)
        [] (fun _ => none) 0 "T" true LaunchOutcome.osError false true
        "id1" "codex" "p" none none none).1.agents.map Prod.fst) ∧
    (∀ p, LaunchOutcome.osError = LaunchOutcome.ok p → p ∉ ([] : List Int) →
      p ∉ (spawn c2EmptyState (fun _ => some "/bin/codex") (fun _ => CwdKind.isDir)
        [] (fun _ => none) 0 "T" true LaunchOutcome.osError false true
        "id1" "codex" "p" none none none).2.1) :=
  C2_spawn_failure_rollback c2EmptyState (fun _ => some "/bin/codex")
    (fun _ => CwdKind.isDir) [] (fun _ => none) 0 "T" true LaunchOutcome.osError false true
    "id1" "codex" "p" none none none ("safe", false) "/bin/codex"
    ["codex", "exec", "p", "--full-auto", "--json"]
    rfl (by decide) rfl (fun c hc => Option.noConfusion hc) (by decide)
    (Or.inr (Or.inl rfl)) (by decide) (by decide)

/-- C3 counterexample: a non-empty log line that parses as JSON but whose
normalization raises (a cursor `assistant` payload whose `message` is not a
dict) contributes no canonical event at all — the read offset has already
advanced, so the line is silently dropped from the event cache. -/
theorem C3_counterexample :
    (processLines "cursor" "T" 0 ⟨[], .running, none⟩
      [LogLine.json (Json.obj [("type", Json.str "assistant"),
        ("message", Json.str "oops")])]).cache = [] :=
  rfl

/-- C3 amended: provided every JSON line of the batch normalizes without
raising, each non-empty line contributes at least one canonical event — a
malformed (non-JSON) line becomes a `raw` event and a normalized line fans out
into at least one event — so the cache grows by at least the number of lines.
A line whose normalization raises, however, is silently dropped together with
the rest of its batch (see the counterexample). -/
theorem C3_lines_preserved (agent_type ts : String) (now : Nat)
    (lines : List LogLine) (s : RState)
    (hok : ∀ j, LogLine.json j ∈ lines → ∃ evs, normalize_events agent_type j ts = .ok evs) :
    s.cache.length + lines.length ≤ (processLines agent_type ts now s lines).cache.length :=
  processLines_cache_length agent_type ts now lines s hok

/-- C3 witness: the amended statement on a concrete batch with one malformed
line and one well-formed codex line. -/
theorem C3_lines_preserved_witness :
    (⟨[], .running, none⟩ : RState).cache.length +
      ([LogLine.malformed "oops",
        LogLine.json (Json.obj [("type", Json.str "turn.started")])] : List LogLine).length ≤
    (processLines "codex" "T" 0 ⟨[], .running, none⟩
      [LogLine.malformed "oops",
       LogLine.json (Json.obj [("type", Json.str "turn.started")])]).cache.length :=
  C3_lines_preserved "codex" "T" 0
    [LogLine.malformed "oops", LogLine.json (Json.obj [("type", Json.str "turn.started")])]
    ⟨[], .running, none⟩
    (by
      intro j hj
      simp only [List.mem_cons, List.not_mem_nil, or_false] at hj
      rcases hj with hj | hj
      · exact absurd hj (by intro hc; cases hc)
      · cases hj
        exact ⟨_, rfl⟩)

/-- C4 counterexample: normalization can raise — the cursor translation of a
payload whose top-level type `assistant` is recognized but whose `message`
field is not a dict raises (`AttributeError` on `message.get`) instead of
producing a passthrough event. -/
theorem C4_counterexample :
    normalize_events "cursor" (Json.obj [("type", Json.str "assistant"),
      ("message", Json.str "not a dict")]) "T" = .error () :=
  rfl

/-- C4 amended: for every supported agent type, a payload whose top-level
`type` is not among that vendor's recognized type strings never raises and
yields exactly one passthrough event carrying the unmodified payload in its
`raw` field; payloads with a recognized top-level type but malformed nested
fields can still raise (see the counterexample). -/
theorem C4_unrecognized_passthrough (agent_type : String) (fs : List (String × Json))
    (ts : String)
    (hsupp : agent_type = "codex" ∨ agent_type = "cursor" ∨ agent_type = "gemini" ∨
      agent_type = "claude")
    (hunrec : recognizedTop agent_type (lookupD fs "type" (Json.str "unknown")) = false) :
    normalize_events agent_type (Json.obj fs) ts =
      .ok [[("type", lookupD fs "type" (Json.str "unknown")),
            ("agent", Json.str agent_type),
            ("raw", Json.obj fs),
            ("timestamp", if agent_type = "gemini"
              then lookupD fs "timestamp" (Json.str ts) else Json.str ts)]] := by
  rcases hsupp with h | h | h | h <;> subst h
  · have hr : recognizedTop "codex" (lookupD fs "type" (Json.str "unknown")) =
        ((lookupD fs "type" (Json.str "unknown")).isS "thread.started" ||
         (lookupD fs "type" (Json.str "unknown")).isS "turn.started" ||
         (lookupD fs "type" (Json.str "unknown")).isS "item.completed" ||
         (lookupD fs "type" (Json.str "unknown")).isS "turn.completed") := rfl
    rw [hr] at hunrec
    obtain ⟨habc, h4⟩ := or_false_split hunrec
    obtain ⟨hab, h3⟩ := or_false_split habc
    obtain ⟨h1, h2⟩ := or_false_split hab
    simp [normalize_events, normalize_codex, onObj, passthroughEv, h1, h2, h3, h4]
  · have hr : recognizedTop "cursor" (lookupD fs "type" (Json.str "unknown")) =
        ((lookupD fs "type" (Json.str "unknown")).isS "system" ||
         (lookupD fs "type" (Json.str "unknown")).isS "thinking" ||
         (lookupD fs "type" (Json.str "unknown")).isS "assistant" ||
         (lookupD fs "type" (Json.str "unknown")).isS "result" ||
         (lookupD fs "type" (Json.str "unknown")).isS "tool_result") := rfl
    rw [hr] at hunrec
    obtain ⟨habcd, h5⟩ := or_false_split hunrec
    obtain ⟨habc, h4⟩ := or_false_split habcd
    obtain ⟨hab, h3⟩ := or_false_split habc
    obtain ⟨h1, h2⟩ := or_false_split hab
    simp [normalize_events, normalize_cursor, onObj, passthroughEv, h1, h2, h3, h4, h5]
  · have hr : recognizedTop "gemini" (lookupD fs "type" (Json.str "unknown")) =
        ((lookupD fs "type" (Json.str "unknown")).isS "init" ||
         (lookupD fs "type" (Json.str "unknown")).isS "message" ||
         (lookupD fs "type" (Json.str "unknown")).isS "tool_call" ||
         (lookupD fs "type" (Json.str "unknown")).isS "tool_use" ||
         (lookupD fs "type" (Json.str "unknown")).isS "result") := rfl
    rw [hr] at hunrec
    obtain ⟨habcd, h5⟩ := or_false_split hunrec
    obtain ⟨habc, h4⟩ := or_false_split habcd
    obtain ⟨hab, h3⟩ := or_false_split habc
    obtain ⟨h1, h2⟩ := or_false_split hab
    simp [normalize_events, normalize_gemini, onObj, h1, h2, h3, h4, h5]
  · have hr : recognizedTop "claude" (lookupD fs "type" (Json.str "unknown")) =
        ((lookupD fs "type" (Json.str "unknown")).isS "system" ||
         (lookupD fs "type" (Json.str "unknown")).isS "thinking" ||
         (lookupD fs "type" (Json.str "unknown")).isS "assistant" ||
         (lookupD fs "type" (Json.str "unknown")).isS "result" ||
         (lookupD fs "type" (Json.str "unknown")).isS "tool_result") := rfl
    rw [hr] at hunrec
    obtain ⟨habcd, h5⟩ := or_false_split hunrec
    obtain ⟨habc, h4⟩ := or_false_split habcd
    obtain ⟨hab, h3⟩ := or_false_split habc
    obtain ⟨h1, h2⟩ := or_false_split hab
    simp [normalize_events, normalize_claude, normalize_cursor, onObj, exBind, setField,
      passthroughEv, h1, h2, h3, h4, h5]

/-- C4 witness: the amended statement at a concrete codex payload with an
unrecognized top-level type. -/
theorem C4_unrecognized_passthrough_witness :
    (("codex" : String) = "codex" ∨ ("codex" : String) = "cursor" ∨
      ("codex" : String) = "gemini" ∨ ("codex" : String) = "claude") ∧
    recognizedTop "codex" (lookupD [("type", Json.str "bogus")] "type" (Json.str "unknown")) = false ∧
    normalize_events "codex" (Json.obj [("type", Json.str "bogus")]) "T" =
      .ok [[("type", lookupD [("type", Json.str "bogus")] "type" (Json.str "unknown")),
            ("agent", Json.str "codex"),
            ("raw", Json.obj [("type", Json.str "bogus")]),
            ("timestamp", if ("codex" : String) = "gemini"
              then lookupD [("type", Json.str "bogus")] "timestamp" (Json.str "T")
              else Json.str "T")]] :=
  ⟨Or.inl rfl, rfl,
   C4_unrecognized_passthrough "codex" [("type", Json.str "bogus")] "T" (Or.inl rfl) rfl⟩

/-- C5: concurrency admission — after refreshing the status of every tracked
record, a spawn whose refreshed `Running` count is at or above the configured
cap is rejected immediately with the cap error (no queuing); and once the
refreshed `Running` count is below the cap, a spawn with otherwise valid
arguments and successful launch/persistence returns the new agent id. -/
theorem C5_concurrency_admission
    (st : MgrState) (which : String → Option String) (cwdK : String → CwdKind)
    (live : List Int) (ec : Int → Option Int) (now : Nat) (ts : String)
    (mkdirOk : Bool) (launch : LaunchOutcome) (childDiesEarly saveOk : Bool)
    (agent_id agent_type prompt : String) (cwd : Option String)
    (yolo : Option Bool) (mode : Option String) :
    (∀ rm, resolve_mode_flags mode yolo st.defaultMode = .ok rm →
      st.maxConcurrent ≤ countRunning (refreshAll live ec now ts st) →
      (spawn st which cwdK live ec now ts mkdirOk launch childDiesEarly saveOk
        agent_id agent_type prompt cwd yolo mode).2.2 =
      .error ("Maximum concurrent agents (" ++ toString st.maxConcurrent ++
        ") reached. Wait for an agent to complete or stop one first.")) ∧
    (∀ rm path cmd p, resolve_mode_flags mode yolo st.defaultMode = .ok rm →
      countRunning (refreshAll live ec now ts st) < st.maxConcurrent →
      check_cli_available which agent_type = .ok path →
      (∀ c, cwd = some c → cwdK c = .isDir) →
      build_command agent_type prompt rm.2 = .ok cmd →
      mkdirOk = true → launch = .ok p → saveOk = true →
      (spawn st which cwdK live ec now ts mkdirOk launch childDiesEarly saveOk
        agent_id agent_type prompt cwd yolo mode).2.2 = .ok agent_id) := by
  constructor
  · intro rm hmode hcap
    unfold spawn
    rw [hmode]
    simp only []
    have hcap2 : (refreshAll live ec now ts st).maxConcurrent ≤
        countRunning (refreshAll live ec now ts st) := by
      have hmx : (refreshAll live ec now ts st).maxConcurrent = st.maxConcurrent := rfl
      rw [hmx]
      exact hcap
    rw [if_pos hcap2]
    rfl
  · intro rm path cmd p hmode hcap hcli hcwd hbuild hmk hla hsv
    subst hmk hla hsv
    rw [spawn_validated st which cwdK live ec now ts true (LaunchOutcome.ok p)
      childDiesEarly true agent_id agent_type prompt cwd yolo mode rm path cmd
      hmode hcap hcli hcwd hbuild]
    unfold spawn_launch
    simp only [Bool.not_true, Bool.false_eq_true, if_false]

/-- C5 witness: with cap 1 and one confirmed-running agent a second spawn
fails with the cap error; with the same tracked agent's process dead, the
refresh makes it terminal, freeing the slot, and the next spawn succeeds. -/
theorem C5_concurrency_admission_witness :
    ((spawn c5State (fun _ => some "x") (fun _ => CwdKind.isDir)
        [5] (fun _ => some 0) 9 "T" true (LaunchOutcome.ok 33) false true
        "id2" "codex" "p" none none none).2.2 =
      .error "Maximum concurrent agents (1) reached. Wait for an agent to complete or stop one first.") ∧
    ((spawn c5State (fun _ => some "x") (fun _ => CwdKind.isDir)
        [] (fun _ => some 0) 9 "T" true (LaunchOutcome.ok 33) false true
        "id2" "codex" "p" none none none).2.2 = .ok "id2") :=
  ⟨(C5_concurrency_admission c5State (fun _ => some "x") (fun _ => CwdKind.isDir)
      [5] (fun _ => some 0) 9 "T" true (LaunchOutcome.ok 33) false true
      "id2" "codex" "p" none none none).1 ("safe", false) rfl (by decide),
   (C5_concurrency_admission c5State (fun _ => some "x") (fun _ => CwdKind.isDir)
      [] (fun _ => some 0) 9 "T" true (LaunchOutcome.ok 33) false true
      "id2" "codex" "p" none none none).2 ("safe", false) "x"
      ["codex", "exec", "p", "--full-auto", "--json"] 33
      rfl (by decide) rfl (fun c hc => Option.noConfusion hc) (by decide) rfl rfl rfl⟩

/-- C6: the cursor/claude `assistant` translation fans out — a payload with
one non-empty embedded text segment and two embedded tool invocations yields
exactly three canonical events: two of kind `tool_use` (in block order) and
one of kind `message` carrying the text. -/
theorem C6_assistant_fanout (ts t : String) (ht : t ≠ "") (n1 a1 n2 a2 : Json) :
    normalize_events "cursor" (Json.obj [("type", Json.str "assistant"),
      ("message", Json.obj [("content", Json.arr
        [Json.obj [("type", Json.str "text"), ("text", Json.str t)],
         Json.obj [("type", Json.str "tool_use"), ("name", n1), ("input", a1)],
         Json.obj [("type", Json.str "tool_use"), ("name", n2), ("input", a2)]])])]) ts
    = .ok [cursorToolEvent n1 a1 ts, cursorToolEvent n2 a2 ts, cursorMsgEvent t ts] := by
  have hne : ("" ++ t) ≠ "" := by rw [String.empty_append]; exact ht
  have hbne : (t != "") = true := by simpa using ht
  simp [normalize_events, normalize_cursor, cursorAssistant, onObj, exBind, pyIter,
    foldE, cursorBlockStep, lookupD, Json.isS, hne, String.empty_append, hbne, ht]

/-- C6 witness: the fan-out at a concrete payload with text `hello` and tools
`grep` and `ls`. -/
theorem C6_assistant_fanout_witness :
    ("hello" : String) ≠ "" ∧
    normalize_events "cursor" (Json.obj [("type", Json.str "assistant"),
      ("message", Json.obj [("content", Json.arr
        [Json.obj [("type", Json.str "text"), ("text", Json.str "hello")],
         Json.obj [("type", Json.str "tool_use"), ("name", Json.str "grep"), ("input", Json.obj [])],
         Json.obj [("type", Json.str "tool_use"), ("name", Json.str "ls"), ("input", Json.obj [])]])])]) "T"
    = .ok [cursorToolEvent (Json.str "grep") (Json.obj []) "T",
           cursorToolEvent (Json.str "ls") (Json.obj []) "T",
           cursorMsgEvent "hello" "T"] :=
  ⟨by decide,
   C6_assistant_fanout "T" "hello" (by decide) (Json.str "grep") (Json.obj [])
     (Json.str "ls") (Json.obj [])⟩

/-- C7: in safe (default) mode, a prompt containing the unsafe-automation flag
as a standalone word-boundary token is rejected with the error naming the
`--yolo` restriction for every supported agent type, while the flag text
embedded in a longer word is not rejected; the same prompt with explicit
unsafe-mode opt-in succeeds, and for codex (whose template carries
`--full-auto`) the resulting command contains `--yolo` in place of
`--full-auto`. -/
theorem C7_yolo_prompt_safety :
    (build_command "codex" "fix bug --yolo" false =
      .error "Safety: --yolo flag requires explicit yolo=True (default mode is --full-auto).") ∧
    (build_command "cursor" "fix bug --yolo" false =
      .error "Safety: --yolo flag requires explicit yolo=True (default mode is --full-auto).") ∧
    (build_command "gemini" "fix bug --yolo" false =
      .error "Safety: --yolo flag requires explicit yolo=True (default mode is --full-auto).") ∧
    (build_command "claude" "fix bug --yolo" false =
      .error "Safety: --yolo flag requires explicit yolo=True (default mode is --full-auto).") ∧
    (build_command "codex" "fix bug --yoloish" false =
      .ok ["codex", "exec", "fix bug --yoloish", "--full-auto", "--json"]) ∧
    (build_command "codex" "fix bug --yolo" true =
      .ok ["codex", "exec", "fix bug --yolo", "--yolo", "--json"]) := by
  refine ⟨?_, ?_, ?_, ?_, ?_, ?_⟩ <;> decide

/-- C8 counterexample: the summarizer's `final_message` takes the most recent
message event with non-empty content regardless of the completion flag — on a
complete message followed by a delta fragment it reports the delta fragment,
not the most recent complete message required by the claim. -/
theorem C8_counterexample :
    summarize_final_message c8Events = some (Json.str "part") ∧
    spec_final_message c8Events = some (Json.str "done") ∧
    summarize_final_message c8Events ≠ spec_final_message c8Events := by
  refine ⟨rfl, rfl, ?_⟩
  intro h
  have ha : summarize_final_message c8Events = some (Json.str "part") := rfl
  have hb : spec_final_message c8Events = some (Json.str "done") := rfl
  rw [ha, hb] at h
  have h2 : Json.str "part" = Json.str "done" := Option.some.inj h
  have h3 : "part" = "done" := by injection h2
  exact absurd h3 (by decide)

/-- C8 amended: for every event sequence, the summary's `final_message` equals
the content of the most recent `message` event with truthy (non-empty)
content, irrespective of the completion flag — delta fragments with content do
become the final message. -/
theorem C8_final_message_last_contentful (events : List CEvent) :
    summarize_final_message events = last_contentful_message events :=
  summarize_final_message_eq events

/-- C9 counterexample: with an invalid mode string, an unavailable CLI and a
missing working directory violated simultaneously, spawn raises the
invalid-mode error — not the CLI or working-directory error that the claimed
order (type, CLI, cwd, mode, then concurrency) would predict. -/
theorem C9_counterexample :
    (spawn ⟨[], [], 10, 50, "safe"⟩ (fun _ => none) (fun _ => CwdKind.missing)
      [] (fun _ => none) 0 "T" true LaunchOutcome.osError false true
      "id1" "codex" "p" (some "/nope") none (some "turbo")).2.2
      = .error "Invalid mode \x27turbo\x27. Use \x27safe\x27 or \x27yolo\x27." ∧
    ("Invalid mode \x27turbo\x27. Use \x27safe\x27 or \x27yolo\x27." : String) ≠
      "CLI tool \x27codex\x27 not found in PATH. Install it first." ∧
    ("Invalid mode \x27turbo\x27. Use \x27safe\x27 or \x27yolo\x27." : String) ≠
      "Working directory does not exist: /nope" :=
  ⟨rfl, by decide, by decide⟩

/-- C9 amended: the validations run in source order — mode-string resolution
first, then concurrency admission (after a full status refresh), then the
combined unknown-type/CLI-availability check, then the working-directory
checks — and when several preconditions are violated at once the error raised
is the earliest in THAT order. -/
theorem C9_validation_order
    (st : MgrState) (which : String → Option String) (cwdK : String → CwdKind)
    (live : List Int) (ec : Int → Option Int) (now : Nat) (ts : String)
    (mkdirOk : Bool) (launch : LaunchOutcome) (childDiesEarly saveOk : Bool)
    (agent_id agent_type prompt : String) (cwd : Option String)
    (yolo : Option Bool) (mode : Option String) :
    (∀ e, resolve_mode_flags mode yolo st.defaultMode = .error e →
      (spawn st which cwdK live ec now ts mkdirOk launch childDiesEarly saveOk
        agent_id agent_type prompt cwd yolo mode).2.2 = .error e) ∧
    (∀ rm, resolve_mode_flags mode yolo st.defaultMode = .ok rm →
      st.maxConcurrent ≤ countRunning (refreshAll live ec now ts st) →
      (spawn st which cwdK live ec now ts mkdirOk launch childDiesEarly saveOk
        agent_id agent_type prompt cwd yolo mode).2.2 =
      .error ("Maximum concurrent agents (" ++ toString st.maxConcurrent ++
        ") reached. Wait for an agent to complete or stop one first.")) ∧
    (∀ rm e, resolve_mode_flags mode yolo st.defaultMode = .ok rm →
      countRunning (refreshAll live ec now ts st) < st.maxConcurrent →
      check_cli_available which agent_type = .error e →
      (spawn st which cwdK live ec now ts mkdirOk launch childDiesEarly saveOk
        agent_id agent_type prompt cwd yolo mode).2.2 = .error e) ∧
    (∀ rm path c, resolve_mode_flags mode yolo st.defaultMode = .ok rm →
      countRunning (refreshAll live ec now ts st) < st.maxConcurrent →
      check_cli_available which agent_type = .ok path →
      cwd = some c → cwdK c ≠ .isDir →
      (spawn st which cwdK live ec now ts mkdirOk launch childDiesEarly saveOk
          agent_id agent_type prompt cwd yolo mode).2.2 =
        .error ("Working directory does not exist: " ++ c) ∨
      (spawn st which cwdK live ec now ts mkdirOk launch childDiesEarly saveOk
          agent_id agent_type prompt cwd yolo mode).2.2 =
        .error ("Working directory is not a directory: " ++ c)) := by
  have hmx : (refreshAll live ec now ts st).maxConcurrent = st.maxConcurrent := rfl
  refine ⟨?_, ?_, ?_, ?_⟩
  · intro e hmode
    unfold spawn
    rw [hmode]
  · intro rm hmode hcap
    unfold spawn
    rw [hmode]
    simp only []
    rw [if_pos (by rw [hmx]; exact hcap)]
    rfl
  · intro rm e hmode hcap hcli
    unfold spawn
    rw [hmode]
    simp only []
    rw [if_neg (by rw [hmx]; exact Nat.not_le.mpr hcap), hcli]
  · intro rm path c hmode hcap hcli hc hnd
    subst hc
    unfold spawn
    rw [hmode]
    simp only []
    rw [if_neg (by rw [hmx]; exact Nat.not_le.mpr hcap), hcli]
    simp only []
    cases hk : cwdK c with
    | missing => left; simp [hk]
    | notDir => right; simp [hk]
    | isDir => exact absurd hk hnd

/-- C9 witness: each stage of the actual order at concrete inputs — mode error
despite CLI and cwd also being invalid; cap error despite CLI and cwd invalid;
CLI error despite cwd invalid; and the cwd error once everything earlier
passes. -/
theorem C9_validation_order_witness :
    ((spawn c2EmptyState (fun _ => none) (fun _ => CwdKind.missing)
        [] (fun _ => none) 0 "T" true LaunchOutcome.osError false true
        "id1" "codex" "p" (some "/nope") none (some "turbo")).2.2 =
      .error "Invalid mode \x27turbo\x27. Use \x27safe\x27 or \x27yolo\x27.") ∧
    ((spawn c5State (fun _ => none) (fun _ => CwdKind.missing)
        [5] (fun _ => some 0) 9 "T" true LaunchOutcome.osError false true
        "id2" "codex" "p" (some "/nope") none none).2.2 =
      .error "Maximum concurrent agents (1) reached. Wait for an agent to complete or stop one first.") ∧
    ((spawn c2EmptyState (fun _ => none) (fun _ => CwdKind.missing)
        [] (fun _ => none) 0 "T" true LaunchOutcome.osError false true
        "id1" "codex" "p" (some "/nope") none none).2.2 =
      .error "CLI tool \x27codex\x27 not found in PATH. Install it first.") ∧
    ((spawn c2EmptyState (fun _ => some "/bin/codex") (fun _ => CwdKind.missing)
        [] (fun _ => none) 0 "T" true LaunchOutcome.osError false true
        "id1" "codex" "p" (some "/nope") none none).2.2 =
      .error ("Working directory does not exist: " ++ "/nope") ∨
     (spawn c2EmptyState (fun _ => some "/bin/codex") (fun _ => CwdKind.missing)
        [] (fun _ => none) 0 "T" true LaunchOutcome.osError false true
        "id1" "codex" "p" (some "/nope") none none).2.2 =
      .error ("Working directory is not a directory: " ++ "/nope")) :=
  ⟨(C9_validation_order c2EmptyState (fun _ => none) (fun _ => CwdKind.missing)
      [] (fun _ => none) 0 "T" true LaunchOutcome.osError false true
      "id1" "codex" "p" (some "/nope") none (some "turbo")).1
      "Invalid mode \x27turbo\x27. Use \x27safe\x27 or \x27yolo\x27." rfl,
   (C9_validation_order c5State (fun _ => none) (fun _ => CwdKind.missing)
      [5] (fun _ => some 0) 9 "T" true LaunchOutcome.osError false true
      "id2" "codex" "p" (some "/nope") none none).2.1 ("safe", false) rfl (by decide),
   (C9_validation_order c2EmptyState (fun _ => none) (fun _ => CwdKind.missing)
      [] (fun _ => none) 0 "T" true LaunchOutcome.osError false true
      "id1" "codex" "p" (some "/nope") none none).2.2.1 ("safe", false)
      "CLI tool \x27codex\x27 not found in PATH. Install it first." rfl (by decide) rfl,
   (C9_validation_order c2EmptyState (fun _ => some "/bin/codex") (fun _ => CwdKind.missing)
      [] (fun _ => none) 0 "T" true LaunchOutcome.osError false true
      "id1" "codex" "p" (some "/nope") none none).2.2.2 ("safe", false) "/bin/codex" "/nope"
      rfl (by decide) rfl rfl (by decide)⟩

/-- C10 counterexample: `normalize_events` does not return a list at all for
some dictionary payloads — the claude translation of a payload whose `message`
field is a number raises instead of returning a (non-empty) list. -/
theorem C10_counterexample :
    normalize_events "claude" (Json.obj [("type", Json.str "assistant"),
      ("message", Json.num 3)]) "T" = .error () :=
  rfl

/-- C10 amended: whenever `normalize_events` returns (rather than raising),
the returned canonical-event list is non-empty — no payload ever yields zero
events, for any agent type string. -/
theorem C10_ok_list_nonempty (agent_type : String) (raw : Json) (ts : String)
    (l : List CEvent) (h : normalize_events agent_type raw ts = .ok l) : l ≠ [] :=
  normalize_events_nonempty agent_type raw ts l h

/-- C10 witness: the amended statement at a concrete codex payload. -/
theorem C10_ok_list_nonempty_witness :
    normalize_events "codex" (Json.obj [("type", Json.str "turn.started")]) "T" =
      .ok [[("type", Json.str "turn_start"), ("agent", Json.str "codex"),
            ("timestamp", Json.str "T")]] ∧
    [[("type", Json.str "turn_start"), ("agent", Json.str "codex"),
      ("timestamp", Json.str "T")]] ≠ ([] : List CEvent) :=
  ⟨rfl, C10_ok_list_nonempty "codex" (Json.obj [("type", Json.str "turn.started")]) "T" _ rfl⟩
